import Mathlib

/-!
Shallow embedding of the flagg feature-flag core (src/core/index.ts).

JavaScript values that occur as flag values, flag defaults and storage
contents are modelled by `JSVal` (undefined, null, booleans, strings).
Storage backends are external stateful objects; the collection supplied at
construction is modelled as a list of `StorageDecl` (name and write
capability, i.e. whether the object has `set`/`remove` or is read-only),
and the mutable contents of the backend at position `i` of that list is
the association list `w i` of a `WorldState` function.  The storage map
built by `makeStorageMap` maps names to positions in the list, so that the
synthetic "_default" entry aliases the same backend object as the first
storage's own name.

`console.warn` output is modelled by `Warning` values returned alongside
results.  An uncaught JavaScript exception (a TypeError from dereferencing
`undefined`) is modelled by `Except TypeErr` on read paths and by the
`threw` flag of `EffResult` on write paths; the `world` component of a
thrown `EffResult` is the storage state at the moment the exception
propagates (all throw sites in the source occur before any mutation of the
pair being processed).
-/

namespace FlaggCore

/-- JavaScript runtime values relevant to flagg: flag values are
`boolean | string | null`, and `undefined` additionally occurs as an
absent storage entry, absent `default` field, or an omitted `set`
argument. -/
inductive JSVal where
  | undef
  | null
  | bool (b : Bool)
  | str (s : String)
deriving DecidableEq

/-- JavaScript truthiness, `!!v`, restricted to `JSVal`. -/
def jsTruthy : JSVal → Bool
  | .undef => false
  | .null => false
  | .bool b => b
  | .str s => s != ""

/-- `JSON.stringify` restricted to `JSVal`; `none` models the call
returning the value `undefined` (as `JSON.stringify(undefined)` does).
Escaping of special characters inside strings is irrelevant to the
comparisons performed by the source (`===` on the two serializations),
which only need that equal inputs serialize equally. -/
def jsonStringify : JSVal → Option String
  | .undef => none
  | .null => some "null"
  | .bool true => some "true"
  | .bool false => some "false"
  | .str s => some ("\"" ++ s ++ "\"")

/-- JavaScript object property read, `m[k]`, on an insertion-ordered
object modelled as an association list (keys unique). -/
def jsObjGet {α : Type} : List (String × α) → String → Option α
  | [], _ => none
  | p :: rest, k => if p.1 = k then some p.2 else jsObjGet rest k

/-- JavaScript object property write, `m[k] = v`: updates the existing
property in place, else appends a new one (insertion order preserved). -/
def jsObjSet {α : Type} : List (String × α) → String → α → List (String × α)
  | [], k, v => [(k, v)]
  | p :: rest, k, v => if p.1 = k then (k, v) :: rest else p :: jsObjSet rest k v

/-- JavaScript `delete m[k]`: removes the property (all occurrences; a JS
object never holds duplicate keys, so this agrees with JS semantics on
every reachable state and needs no uniqueness side condition). -/
def jsObjRemove {α : Type} : List (String × α) → String → List (String × α)
  | [], _ => []
  | p :: rest, k =>
    if p.1 = k then jsObjRemove rest k else p :: jsObjRemove rest k

/-- A flag definition (src/core/defs: `{ default?, options?, storage? }`).
An absent `default` field is `JSVal.undef` (the source tests
`flagDef.default === undefined`); absent `options`/`storage` are `none`. -/
structure FlagDefinition where
  default : JSVal := JSVal.undef
  options : Option (List String) := none
  storage : Option String := none
deriving DecidableEq

/-- The externally observable shape of one supplied storage backend: its
`name` property and whether it is read-write (has `set` and `remove`) or
read-only (has only `get`/`all`). -/
structure StorageDecl where
  name : String
  writable : Bool
deriving DecidableEq

/-- Contents of one storage backend: key/value pairs it currently holds. -/
abbrev StorageData := List (String × JSVal)

/-- Mutable state of all supplied backends, indexed by their position in
the construction-time storage list. -/
abbrev WorldState := Nat → StorageData

/-- `storage.get(key)`: an absent entry reads as `undefined`. -/
def storageGet (w : WorldState) (idx : Nat) (key : String) : JSVal :=
  (jsObjGet (w idx) key).getD JSVal.undef

/-- `storage.set(key, v)` on the backend at position `idx`. -/
def storageSet (w : WorldState) (idx : Nat) (key : String) (v : JSVal) :
    WorldState :=
  fun j => if j = idx then jsObjSet (w j) key v else w j

/-- `storage.remove(key)` on the backend at position `idx`. -/
def storageRemove (w : WorldState) (idx : Nat) (key : String) : WorldState :=
  fun j => if j = idx then jsObjRemove (w j) key else w j

/-- Whether the backend at position `idx` is read-write, i.e. the source's
`'set' in storage` / `'remove' in storage` capability probes. -/
def storageWritable (decls : List StorageDecl) (idx : Nat) : Bool :=
  ((decls.get? idx).map StorageDecl.writable).getD false

/-- The `name` property of the backend at position `idx`. -/
def storageDeclName (decls : List StorageDecl) (idx : Nat) : String :=
  ((decls.get? idx).map StorageDecl.name).getD ""

/-- `console.warn` messages emitted by the core. -/
inductive Warning where
  | storageNotAvailable (storageName : String)
  | readOnlyWrite (storageName : String)
deriving DecidableEq

/-- An uncaught JavaScript `TypeError` (property access on `undefined`). -/
inductive TypeErr
  | typeError
deriving DecidableEq

/-- Result of a write-path operation: the storage state afterwards, the
warnings printed, and whether a TypeError propagated out of the call. -/
structure EffResult where
  world : WorldState
  warnings : List Warning
  threw : Bool

/-- `makeStorageMap`'s `reduce` loop: `acc[storage.name] = storage` for
each storage, carrying the position `i` of the current element. -/
def makeStorageMapAux :
    List (String × Option Nat) → Nat → List StorageDecl →
      List (String × Option Nat)
  | acc, _, [] => acc
  | acc, i, d :: rest => makeStorageMapAux (jsObjSet acc d.name (some i)) (i + 1) rest

/-- `makeStorageMap`: name → storage object map with the synthetic
`_default` entry bound to `storageArr[0]` (which is `undefined`, i.e.
`none`, when no storage was supplied).  Values are positions into the
supplied list, standing for the backend objects themselves. -/
def makeStorageMap (decls : List StorageDecl) : List (String × Option Nat) :=
  makeStorageMapAux
    [("_default", if decls.isEmpty then none else some 0)] 0 decls

/-- Reading `storageMap[k]` and testing the result for truthiness: `none`
means the property is absent or holds `undefined`; a storage object is
always truthy. -/
def storageLookup (storageMap : List (String × Option Nat)) (k : String) :
    Option Nat :=
  (jsObjGet storageMap k).bind id

/-- `getFlagDefaultValue`: `flagDef.default === undefined ? null :
flagDef.default`. -/
def getFlagDefaultValue (flagDef : FlagDefinition) : JSVal :=
  if flagDef.default = JSVal.undef then JSVal.null else flagDef.default

/-- `getFlagDef`: `definitions[flagName]` (undefined when absent). -/
def getFlagDef (definitions : List (String × FlagDefinition))
    (flagName : String) : Option FlagDefinition :=
  jsObjGet definitions flagName

/-- `resolveFlagStorage`.  `flagDef.storage` is read and used as a
property key: when the field is absent the runtime key is the string
"undefined" (JavaScript property-key coercion of the value `undefined`).
If the looked-up value is truthy it is returned; otherwise a warning is
printed only when `storageName !== undefined`, and `storageMap._default`
is returned (possibly `undefined`, i.e. `none`, when no storage was
supplied). -/
def resolveFlagStorage (flagDef : FlagDefinition)
    (storageMap : List (String × Option Nat)) : Option Nat × List Warning :=
  match storageLookup storageMap (flagDef.storage.getD "undefined") with
  | some idx => (some idx, [])
  | none =>
    (storageLookup storageMap "_default",
      match flagDef.storage with
      | some n => [Warning.storageNotAvailable n]
      | none => [])

/-- Flag types as computed by `getFlagType`. -/
inductive FlagType
  | select
  | string
  | boolean
deriving DecidableEq

/-- `typeof v === 'string'` for a `JSVal`. -/
def jsIsString : JSVal → Bool
  | .str _ => true
  | _ => false

/-- `getFlagType`: "select" when `flagDef.options` is present (any array,
even empty, is truthy), else "string" when the default is a string, else
"boolean". -/
def getFlagType (flagDef : FlagDefinition) : FlagType :=
  if flagDef.options.isSome then FlagType.select
  else match flagDef.default with
    | .str _ => FlagType.string
    | _ => FlagType.boolean

/-- `setFlagValue`.  When the definition is absent, `resolveFlagStorage`
dereferences `flagDef.storage` on `undefined` and a TypeError propagates
before anything else happens.  When storage resolution produces
`undefined` (no storage supplied), the `'remove' in storage` /
`'set' in storage` probe throws.  Otherwise the value is compared with the
default via `JSON.stringify` equality: equal → `remove` (or warn when the
backend is read-only), different → `set` (or warn). -/
def setFlagValue (definitions : List (String × FlagDefinition))
    (storages : List StorageDecl) (flagName : String) (value : JSVal)
    (w : WorldState) : EffResult :=
  match getFlagDef definitions flagName with
  | none => ⟨w, [], true⟩
  | some flagDef =>
    match resolveFlagStorage flagDef (makeStorageMap storages) with
    | (none, ws) => ⟨w, ws, true⟩
    | (some idx, ws) =>
      let defaultValue := getFlagDefaultValue flagDef
      if jsonStringify value = jsonStringify defaultValue then
        if storageWritable storages idx then
          ⟨storageRemove w idx flagName, ws, false⟩
        else
          ⟨w, ws ++ [Warning.readOnlyWrite (storageDeclName storages idx)], false⟩
      else
        if storageWritable storages idx then
          ⟨storageSet w idx flagName value, ws, false⟩
        else
          ⟨w, ws ++ [Warning.readOnlyWrite (storageDeclName storages idx)], false⟩

/-- A flagg resolver instance: its (current) definition registry and the
storages supplied at construction.  The storage map is derived by
`Flagg.storageMap` (built once in the source; it is a pure function of
the storages, so recomputing it is observationally identical). -/
structure Flagg where
  definitions : List (String × FlagDefinition)
  storages : List StorageDecl

/-- The instance's storage map. -/
def Flagg.storageMap (f : Flagg) : List (String × Option Nat) :=
  makeStorageMap f.storages

/-- `get(flagName)` (`getResolvedFlagValue`): null when the definition is
absent; else the stored value unless that is null/undefined, in which case
the default.  A TypeError propagates when storage resolution yields
`undefined` (then `storage.get` is a property access on `undefined`). -/
def Flagg.get (f : Flagg) (w : WorldState) (flagName : String) :
    Except TypeErr (JSVal × List Warning) :=
  match getFlagDef f.definitions flagName with
  | none => Except.ok (JSVal.null, [])
  | some flagDef =>
    let defaultValue := getFlagDefaultValue flagDef
    match resolveFlagStorage flagDef f.storageMap with
    | (none, _) => Except.error TypeErr.typeError
    | (some idx, ws) =>
      let value := storageGet w idx flagName
      Except.ok
        (if value = JSVal.undef ∨ value = JSVal.null then defaultValue
         else value, ws)

/-- `isOn(flagName) = !!get(flagName)`. -/
def Flagg.isOn (f : Flagg) (w : WorldState) (flagName : String) :
    Except TypeErr Bool :=
  (f.get w flagName).map fun p => jsTruthy p.1

/-- `getDefault(flagName)`: `getFlagDefaultValue` on `definitions[flagName]`;
a missing definition makes `flagDef.default` a property access on
`undefined`, so a TypeError propagates. -/
def Flagg.getDefault (f : Flagg) (flagName : String) : Except TypeErr JSVal :=
  match getFlagDef f.definitions flagName with
  | none => Except.error TypeErr.typeError
  | some flagDef => Except.ok (getFlagDefaultValue flagDef)

/-- The single-flag-name form of `set`: `value !== undefined &&
setFlagValue(...)` — an `undefined` value short-circuits to a no-op. -/
def Flagg.setOne (f : Flagg) (w : WorldState) (flagName : String)
    (value : JSVal) : EffResult :=
  if value = JSVal.undef then ⟨w, [], false⟩
  else setFlagValue f.definitions f.storages flagName value w

/-- The bulk-map form of `set`: `Object.entries(flags).forEach(...)` in
insertion order.  An exception thrown by `setFlagValue` aborts the
iteration (no `try`/`catch` in the source): previously applied pairs stay
applied, the remaining pairs are not processed, and the exception
propagates. -/
def Flagg.setBulk (f : Flagg) :
    WorldState → List (String × JSVal) → EffResult
  | w, [] => ⟨w, [], false⟩
  | w, (k, v) :: rest =>
    let r := setFlagValue f.definitions f.storages k v w
    if r.threw then r
    else
      let r2 := Flagg.setBulk f r.world rest
      ⟨r2.world, r.warnings ++ r2.warnings, r2.threw⟩

/-- `hydrate`, with each hydration source's (already fetched) `all()`
result given as a key/value list.  Each source is applied as one bulk
`set`.  The sources run as independent `async` callbacks, so an exception
inside one becomes an unhandled promise rejection and does not prevent the
other sources from being applied; warnings accumulate in source order. -/
def Flagg.hydrate (f : Flagg) (w : WorldState)
    (sources : List (List (String × JSVal))) : WorldState × List Warning :=
  sources.foldl
    (fun acc src =>
      let r := f.setBulk acc.1 src
      (r.world, acc.2 ++ r.warnings))
    (w, [])

/-- `isOverridden(flagName)`.  A missing definition makes `getFlagType`
dereference `flagDef.options` on `undefined` → TypeError.  For boolean
flags the comparison is `isOn(flagName) !== !!getDefault(flagName)`, else
`get(flagName) !== getDefault(flagName)` (strict inequality). -/
def Flagg.isOverridden (f : Flagg) (w : WorldState) (flagName : String) :
    Except TypeErr Bool :=
  match getFlagDef f.definitions flagName with
  | none => Except.error TypeErr.typeError
  | some flagDef =>
    if getFlagType flagDef = FlagType.boolean then
      (f.isOn w flagName).bind fun b =>
        (f.getDefault flagName).map fun dv => decide (¬ b = jsTruthy dv)
    else
      (f.get w flagName).bind fun p =>
        (f.getDefault flagName).map fun dv => decide (¬ p.1 = dv)

/-- Position of the last storage in the list whose `name` is `k`, counting
positions from `i`; mirrors which `acc[storage.name] = storage` assignment
of `makeStorageMap`'s reduce survives. -/
def lastIdxFrom (k : String) : Nat → List StorageDecl → Option Nat
  | _, [] => none
  | i, d :: rest =>
    match lastIdxFrom k (i + 1) rest with
    | some j => some j
    | none => if d.name = k then some i else none

/-- Every backend starts with no stored entries. -/
def emptyWorld : WorldState := fun _ => []

/-- Example resolver: one writable storage "S"; flag "a", boolean default `true`. -/
def exBoolTrue : Flagg :=
  ⟨[("a", ⟨JSVal.bool true, none, none⟩)], [⟨"S", true⟩]⟩

/-- Example resolver: one writable storage "S"; flag "a", boolean default `false`. -/
def exBoolFalse : Flagg :=
  ⟨[("a", ⟨JSVal.bool false, none, none⟩)], [⟨"S", true⟩]⟩

/-- Example resolver: one writable storage "S"; no flag definitions. -/
def exNoDefs : Flagg := ⟨[], [⟨"S", true⟩]⟩

/-- Example resolver: one writable storage "S"; flag "a", default `null`. -/
def exNullDefault : Flagg :=
  ⟨[("a", ⟨JSVal.null, none, none⟩)], [⟨"S", true⟩]⟩

/-- Example resolver: one writable storage "S"; flags "b" and "c" defined,
"a" not defined. -/
def exOnlyBC : Flagg :=
  ⟨[("b", ⟨JSVal.bool false, none, none⟩), ("c", ⟨JSVal.bool false, none, none⟩)],
   [⟨"S", true⟩]⟩

/-- Example storage list with two distinctly named backends. -/
def exDecls : List StorageDecl := [⟨"A", true⟩, ⟨"B", false⟩]

theorem jsObjGet_jsObjSet_self {α : Type} (m : List (String × α)) (k : String)
    (v : α) : jsObjGet (jsObjSet m k v) k = some v := by
  induction m with
  | nil => simp [jsObjGet, jsObjSet]
  | cons p rest ih =>
    by_cases h : p.1 = k
    · simp [jsObjSet, h, jsObjGet]
    · simp [jsObjSet, h, jsObjGet, ih]

theorem jsObjGet_jsObjSet_ne {α : Type} (m : List (String × α)) (k k' : String)
    (v : α) (h : k' ≠ k) : jsObjGet (jsObjSet m k v) k' = jsObjGet m k' := by
  induction m with
  | nil => simp [jsObjGet, jsObjSet, Ne.symm h]
  | cons p rest ih =>
    by_cases hp : p.1 = k
    · simp [jsObjSet, hp, jsObjGet, Ne.symm h]
    · by_cases hq : p.1 = k' <;> simp [jsObjSet, hp, jsObjGet, hq, ih, h]

theorem jsObjGet_jsObjRemove_self {α : Type} (m : List (String × α))
    (k : String) : jsObjGet (jsObjRemove m k) k = none := by
  induction m with
  | nil => rfl
  | cons p rest ih => by_cases h : p.1 = k <;> simp [jsObjRemove, h, jsObjGet, ih]

theorem storageGet_storageSet_self (w : WorldState) (idx : Nat) (key : String)
    (v : JSVal) : storageGet (storageSet w idx key v) idx key = v := by
  simp [storageGet, storageSet, jsObjGet_jsObjSet_self]

theorem jsObjGet_storageRemove_self (w : WorldState) (idx : Nat)
    (key : String) : jsObjGet (storageRemove w idx key idx) key = none := by
  simp [storageRemove, jsObjGet_jsObjRemove_self]

theorem setFlagValue_threw_world (definitions : List (String × FlagDefinition))
    (storages : List StorageDecl) (flagName : String) (value : JSVal)
    (w : WorldState)
    (h : (setFlagValue definitions storages flagName value w).threw = true) :
    (setFlagValue definitions storages flagName value w).world = w := by
  rcases hd : getFlagDef definitions flagName with _ | flagDef
  · simp [setFlagValue, hd]
  · rcases hr : resolveFlagStorage flagDef (makeStorageMap storages) with ⟨sto, ws⟩
    rcases sto with _ | idx
    · simp [setFlagValue, hd, hr]
    · by_cases hc :
        jsonStringify value = jsonStringify (getFlagDefaultValue flagDef) <;>
        by_cases hw : storageWritable storages idx = true <;>
          simp [setFlagValue, hd, hr, hc, hw] at h

theorem setBulk_append (f : Flagg) (w : WorldState)
    (l₁ l₂ : List (String × JSVal))
    (h : (f.setBulk w l₁).threw = false) :
    f.setBulk w (l₁ ++ l₂) =
      ⟨(f.setBulk (f.setBulk w l₁).world l₂).world,
       (f.setBulk w l₁).warnings ++
         (f.setBulk (f.setBulk w l₁).world l₂).warnings,
       (f.setBulk (f.setBulk w l₁).world l₂).threw⟩ := by
  induction l₁ generalizing w with
  | nil => simp [Flagg.setBulk]
  | cons p rest ih =>
    obtain ⟨k, v⟩ := p
    by_cases ht : (setFlagValue f.definitions f.storages k v w).threw = true
    · simp [Flagg.setBulk, ht] at h
    · have h' :
        (f.setBulk (setFlagValue f.definitions f.storages k v w).world
          rest).threw = false := by
        simpa [Flagg.setBulk, ht] using h
      simp [Flagg.setBulk, ht, ih _ h', List.append_assoc]

theorem getFlagDefaultValue_ne_undef (d : FlagDefinition) :
    getFlagDefaultValue d ≠ JSVal.undef := by
  unfold getFlagDefaultValue
  split
  · simp
  · assumption

theorem makeStorageMapAux_get (l : List StorageDecl) :
    ∀ (acc : List (String × Option Nat)) (i : Nat) (k : String),
      jsObjGet (makeStorageMapAux acc i l) k =
        match lastIdxFrom k i l with
        | some j => some (some j)
        | none => jsObjGet acc k := by
  induction l with
  | nil => intro acc i k; simp [makeStorageMapAux, lastIdxFrom]
  | cons d rest ih =>
    intro acc i k
    rcases hl : lastIdxFrom k (i + 1) rest with _ | j
    · by_cases hd : d.name = k
      · simp [makeStorageMapAux, ih, lastIdxFrom, hl, hd, jsObjGet_jsObjSet_self]
      · simp [makeStorageMapAux, ih, lastIdxFrom, hl, hd,
          jsObjGet_jsObjSet_ne _ _ _ _ (Ne.symm hd)]
    · simp [makeStorageMapAux, ih, lastIdxFrom, hl]

theorem lastIdxFrom_of_not_mem (k : String) (l : List StorageDecl)
    (h : k ∉ l.map StorageDecl.name) : ∀ i, lastIdxFrom k i l = none := by
  induction l with
  | nil => intro i; rfl
  | cons d rest ih =>
    intro i
    simp only [List.map_cons, List.mem_cons, not_or] at h
    simp [lastIdxFrom, ih h.2, Ne.symm h.1]

theorem lastIdxFrom_nodup_get (l : List StorageDecl)
    (hnd : (l.map StorageDecl.name).Nodup) :
    ∀ (j : Nat) (d : StorageDecl), l.get? j = some d →
      ∀ i, lastIdxFrom d.name i l = some (i + j) := by
  induction l with
  | nil => intro j d h i; simp at h
  | cons x rest ih =>
    intro j d h i
    rw [List.map_cons, List.nodup_cons] at hnd
    rcases j with _ | j'
    · simp only [List.get?] at h
      injection h with h
      subst h
      rw [lastIdxFrom, lastIdxFrom_of_not_mem _ _ hnd.1]
      simp
    · simp only [List.get?] at h
      have harith : i + 1 + j' = i + (j' + 1) := by omega
      rw [lastIdxFrom, ih hnd.2 j' d h (i + 1), harith]

theorem storageLookup_makeStorageMap_name (decls : List StorageDecl)
    (hnd : (decls.map StorageDecl.name).Nodup) (i : Nat) (d : StorageDecl)
    (hi : decls.get? i = some d) :
    storageLookup (makeStorageMap decls) d.name = some i := by
  unfold storageLookup makeStorageMap
  rw [makeStorageMapAux_get, lastIdxFrom_nodup_get decls hnd i d hi 0]
  simp

theorem storageLookup_makeStorageMap_default (decls : List StorageDecl)
    (hdd : "_default" ∉ decls.map StorageDecl.name) (hne : decls ≠ []) :
    storageLookup (makeStorageMap decls) "_default" = some 0 := by
  unfold storageLookup makeStorageMap
  rw [makeStorageMapAux_get, lastIdxFrom_of_not_mem _ _ hdd 0]
  rcases decls with _ | ⟨d0, rest⟩
  · exact absurd rfl hne
  · simp [jsObjGet]

theorem storageLookup_makeStorageMap_not_mem (decls : List StorageDecl)
    (k : String) (hk : k ∉ decls.map StorageDecl.name) (hkd : k ≠ "_default") :
    storageLookup (makeStorageMap decls) k = none := by
  unfold storageLookup makeStorageMap
  rw [makeStorageMapAux_get, lastIdxFrom_of_not_mem _ _ hk 0]
  simp [jsObjGet, Ne.symm hkd]

/-- C9: for a flag name with no definition in the registry, `getDefault`
and `isOverridden` dereference the missing definition (`flagDef.default`
resp. `flagDef.options` on `undefined`) and a TypeError propagates,
rather than returning null or degrading with a warning. -/
theorem getDefault_isOverridden_throw_on_unknown (f : Flagg) (w : WorldState)
    (flagName : String) (h : getFlagDef f.definitions flagName = none) :
    f.getDefault flagName = Except.error TypeErr.typeError ∧
    f.isOverridden w flagName = Except.error TypeErr.typeError := by
  constructor <;> simp [Flagg.getDefault, Flagg.isOverridden, h]

/-- Witness for C9: the registry of `exNoDefs` has no entry for "x". -/
theorem getDefault_isOverridden_throw_on_unknown_witness :
    Flagg.getDefault exNoDefs "x" = Except.error TypeErr.typeError ∧
    Flagg.isOverridden exNoDefs emptyWorld "x" = Except.error TypeErr.typeError :=
  getDefault_isOverridden_throw_on_unknown exNoDefs emptyWorld "x" rfl

/-- C10: the single-name form of `set` with an `undefined` value is a
complete no-op — no storage is read or mutated, nothing is thrown and no
warning is printed — whereas the bulk-map form passes an `undefined`
value through the write path: on `exBoolTrue` (default `true`) the
`undefined` serializes differently from the default, so the backend's
`set` is invoked and the entry `undefined` is stored. -/
theorem setOne_undefined_noop_setBulk_not (f : Flagg) (w : WorldState)
    (flagName : String) :
    f.setOne w flagName JSVal.undef = ⟨w, [], false⟩ ∧
    (exBoolTrue.setBulk emptyWorld [("a", JSVal.undef)]).threw = false ∧
    jsObjGet ((exBoolTrue.setBulk emptyWorld [("a", JSVal.undef)]).world 0) "a"
      = some JSVal.undef :=
  ⟨rfl, rfl, rfl⟩

/-- C2 counterexample: `set` on a flag name with no definition is not
silently skipped — the missing definition is dereferenced inside
`resolveFlagStorage` and a TypeError propagates to the caller. -/
theorem setOne_unknown_throws :
    (exNoDefs.setOne emptyWorld "x" (JSVal.bool true)).threw = true := rfl

/-- C2 (amended): for a flag name with no definition, `get` resolves to
null without touching any storage or throwing; the single-name `set` with
a defined value throws a TypeError while leaving every storage unchanged
and invoking no backend `set`/`remove` (rather than being silently
skipped); only an `undefined` value is skipped, before the definition is
consulted. -/
theorem get_null_set_throws_on_unknown (f : Flagg) (w : WorldState)
    (flagName : String) (v : JSVal)
    (h : getFlagDef f.definitions flagName = none) (hv : v ≠ JSVal.undef) :
    f.get w flagName = Except.ok (JSVal.null, []) ∧
    f.setOne w flagName v = ⟨w, [], true⟩ := by
  constructor
  · simp [Flagg.get, h]
  · simp [Flagg.setOne, hv, setFlagValue, h]

/-- Witness for the amended C2 at a concrete unknown flag name. -/
theorem get_null_set_throws_on_unknown_witness :
    Flagg.get exNoDefs emptyWorld "x" = Except.ok (JSVal.null, []) ∧
    Flagg.setOne exNoDefs emptyWorld "x" (JSVal.bool true)
      = ⟨emptyWorld, [], true⟩ :=
  get_null_set_throws_on_unknown exNoDefs emptyWorld "x" (JSVal.bool true)
    rfl (by decide)

/-- C3: setting a defined flag to a value that is serialization-equal to
its default, on a resolved storage that supports removal, invokes the
backend's `remove`: afterwards the backend holds no entry for the flag
(its own `get` yields `undefined`), nothing is thrown, and the only
warnings are those of storage resolution. -/
theorem set_default_removes_entry (f : Flagg) (w : WorldState)
    (flagName : String) (v : JSVal) (d : FlagDefinition) (idx : Nat)
    (ws : List Warning)
    (hd : getFlagDef f.definitions flagName = some d)
    (hr : resolveFlagStorage d f.storageMap = (some idx, ws))
    (hw : storageWritable f.storages idx = true)
    (hu : v ≠ JSVal.undef)
    (heq : jsonStringify v = jsonStringify (getFlagDefaultValue d)) :
    (f.setOne w flagName v).threw = false ∧
    jsObjGet ((f.setOne w flagName v).world idx) flagName = none ∧
    storageGet (f.setOne w flagName v).world idx flagName = JSVal.undef ∧
    (f.setOne w flagName v).warnings = ws := by
  have hr' : resolveFlagStorage d (makeStorageMap f.storages) = (some idx, ws) := hr
  have hset : f.setOne w flagName v = ⟨storageRemove w idx flagName, ws, false⟩ := by
    simp [Flagg.setOne, hu, setFlagValue, hd, hr', heq, hw]
  rw [hset]
  refine ⟨rfl, jsObjGet_storageRemove_self w idx flagName, ?_, rfl⟩
  simp [storageGet, jsObjGet_storageRemove_self]

/-- Witness for C3: `exBoolTrue`'s flag "a" set back to its default
`true` on the writable storage at position 0. -/
theorem set_default_removes_entry_witness :
    (Flagg.setOne exBoolTrue emptyWorld "a" (JSVal.bool true)).threw = false ∧
    jsObjGet ((Flagg.setOne exBoolTrue emptyWorld "a" (JSVal.bool true)).world 0) "a" = none ∧
    storageGet (Flagg.setOne exBoolTrue emptyWorld "a" (JSVal.bool true)).world 0 "a" = JSVal.undef ∧
    (Flagg.setOne exBoolTrue emptyWorld "a" (JSVal.bool true)).warnings = [] :=
  set_default_removes_entry exBoolTrue emptyWorld "a" (JSVal.bool true)
    ⟨JSVal.bool true, none, none⟩ 0 [] rfl rfl rfl (by decide) (by decide)

/-- C1 counterexample: on `exBoolTrue` (flag "a", boolean default `true`,
writable storage) the value `null` differs from the default under the
serialization comparison and is written to the backend, yet `get` then
returns the default `true` — not `null` — and `isOverridden` returns
`false`. -/
theorem set_null_not_observable :
    jsonStringify JSVal.null ≠
      jsonStringify (getFlagDefaultValue ⟨JSVal.bool true, none, none⟩) ∧
    (exBoolTrue.setOne emptyWorld "a" JSVal.null).threw = false ∧
    jsObjGet ((exBoolTrue.setOne emptyWorld "a" JSVal.null).world 0) "a"
      = some JSVal.null ∧
    exBoolTrue.get (exBoolTrue.setOne emptyWorld "a" JSVal.null).world "a"
      = Except.ok (JSVal.bool true, []) ∧
    exBoolTrue.isOverridden (exBoolTrue.setOne emptyWorld "a" JSVal.null).world "a"
      = Except.ok false :=
  ⟨by decide, rfl, rfl, rfl, rfl⟩

/-- C1 (amended): for a defined flag whose resolved storage is writable,
after `set(flag, v)` where `v` is a non-null, non-undefined value that
differs from the default under the serialization comparison, `get(flag)`
returns `v` — for every such `v`, of any shape; and `isOverridden(flag)`
returns true for string/select-typed flags, while for boolean-typed flags
it returns true exactly when the boolean coercion of `v` differs from
that of the default.  (A null `v` is stored but read back as the default,
so null is excluded from the roundtrip.) -/
theorem set_get_roundtrip_isOverridden (f : Flagg) (w : WorldState)
    (flagName : String) (v : JSVal) (d : FlagDefinition) (idx : Nat)
    (ws : List Warning)
    (hd : getFlagDef f.definitions flagName = some d)
    (hr : resolveFlagStorage d f.storageMap = (some idx, ws))
    (hw : storageWritable f.storages idx = true)
    (hu : v ≠ JSVal.undef) (hn : v ≠ JSVal.null)
    (hne : jsonStringify v ≠ jsonStringify (getFlagDefaultValue d)) :
    (f.setOne w flagName v).threw = false ∧
    f.get (f.setOne w flagName v).world flagName = Except.ok (v, ws) ∧
    f.isOverridden (f.setOne w flagName v).world flagName =
      Except.ok (if getFlagType d = FlagType.boolean
        then decide (¬ jsTruthy v = jsTruthy (getFlagDefaultValue d))
        else true) := by
  have hr' : resolveFlagStorage d (makeStorageMap f.storages) = (some idx, ws) := hr
  have hset : f.setOne w flagName v = ⟨storageSet w idx flagName v, ws, false⟩ := by
    simp [Flagg.setOne, hu, setFlagValue, hd, hr', hne, hw]
  have hget : f.get (storageSet w idx flagName v) flagName = Except.ok (v, ws) := by
    simp [Flagg.get, hd, Flagg.storageMap, hr', storageGet_storageSet_self, hu, hn]
  rw [hset]
  refine ⟨rfl, hget, ?_⟩
  by_cases hty : getFlagType d = FlagType.boolean
  · simp [Flagg.isOverridden, hd, hty, Flagg.isOn, hget, Flagg.getDefault,
      Except.map, Except.bind]
  · have hvd : v ≠ getFlagDefaultValue d := fun hvv => hne (by rw [hvv])
    simp [Flagg.isOverridden, hd, hty, hget, Flagg.getDefault,
      Except.map, Except.bind, hvd]

/-- Witness for the amended C1: writing the truthy string "x" to
`exBoolTrue`'s flag "a" (boolean-typed, default `true`): `get` returns
"x", and `isOverridden` is false because "x" and `true` coerce to the
same boolean. -/
theorem set_get_roundtrip_isOverridden_witness :
    (Flagg.setOne exBoolTrue emptyWorld "a" (JSVal.str "x")).threw = false ∧
    Flagg.get exBoolTrue (Flagg.setOne exBoolTrue emptyWorld "a" (JSVal.str "x")).world "a"
      = Except.ok (JSVal.str "x", []) ∧
    Flagg.isOverridden exBoolTrue (Flagg.setOne exBoolTrue emptyWorld "a" (JSVal.str "x")).world "a"
      = Except.ok (if getFlagType ⟨JSVal.bool true, none, none⟩ = FlagType.boolean
          then decide (¬ jsTruthy (JSVal.str "x") =
            jsTruthy (getFlagDefaultValue ⟨JSVal.bool true, none, none⟩))
          else true) :=
  set_get_roundtrip_isOverridden exBoolTrue emptyWorld "a" (JSVal.str "x")
    ⟨JSVal.bool true, none, none⟩ 0 [] rfl rfl rfl (by decide) (by decide)
    (by decide)

/-- C4 counterexample: in the bulk set `{a: true, b: true}` on `exOnlyBC`
(no definition for "a"), applying the "a" pair throws; contrary to the
claim, the later "b" pair is then NOT applied — the batch aborts with the
exception and the backend still holds no entry for "b". -/
theorem setBulk_abort_counterexample :
    (exOnlyBC.setBulk emptyWorld
      [("a", JSVal.bool true), ("b", JSVal.bool true)]).threw = true ∧
    jsObjGet ((exOnlyBC.setBulk emptyWorld
      [("a", JSVal.bool true), ("b", JSVal.bool true)]).world 0) "b" = none :=
  ⟨rfl, rfl⟩

/-- C4 (amended): bulk set applies its pairs one at a time in iteration
order of the input mapping; when applying one pair throws, all previously
applied pairs remain applied (no rollback), but the batch aborts: the
remaining pairs are not applied and the exception propagates to the
caller. -/
theorem setBulk_prefix_applied_abort (f : Flagg) (w : WorldState)
    (l₁ : List (String × JSVal)) (k : String) (v : JSVal)
    (l₂ : List (String × JSVal))
    (h₁ : (f.setBulk w l₁).threw = false)
    (h₂ : (setFlagValue f.definitions f.storages k v
      (f.setBulk w l₁).world).threw = true) :
    f.setBulk w (l₁ ++ (k, v) :: l₂) =
      ⟨(f.setBulk w l₁).world,
       (f.setBulk w l₁).warnings ++
         (setFlagValue f.definitions f.storages k v
           (f.setBulk w l₁).world).warnings,
       true⟩ := by
  rw [setBulk_append f w l₁ ((k, v) :: l₂) h₁]
  have hw := setFlagValue_threw_world f.definitions f.storages k v
    (f.setBulk w l₁).world h₂
  simp [Flagg.setBulk, h₂, hw]

/-- Witness for the amended C4: on `exOnlyBC`, the pair for "b" is
applied, then the pair for the undefined flag "a" throws and the pair for
"c" is never processed. -/
theorem setBulk_prefix_applied_abort_witness :
    Flagg.setBulk exOnlyBC emptyWorld
        ([("b", JSVal.bool true)] ++ ("a", JSVal.bool true) :: [("c", JSVal.bool true)]) =
      ⟨(Flagg.setBulk exOnlyBC emptyWorld [("b", JSVal.bool true)]).world,
       (Flagg.setBulk exOnlyBC emptyWorld [("b", JSVal.bool true)]).warnings ++
         (setFlagValue exOnlyBC.definitions exOnlyBC.storages "a" (JSVal.bool true)
           (Flagg.setBulk exOnlyBC emptyWorld [("b", JSVal.bool true)]).world).warnings,
       true⟩ :=
  setBulk_prefix_applied_abort exOnlyBC emptyWorld [("b", JSVal.bool true)]
    "a" (JSVal.bool true) [("c", JSVal.bool true)] rfl rfl

/-- C5 counterexample: `exNullDefault`'s flag "a" has a definition (with
default `null`), yet `get` returns `null` — so null does not only occur
for absent definitions. -/
theorem get_null_with_definition :
    getFlagDef exNullDefault.definitions "a" = some ⟨JSVal.null, none, none⟩ ∧
    exNullDefault.get emptyWorld "a" = Except.ok (JSVal.null, []) :=
  ⟨rfl, rfl⟩

/-- C5 (amended): when a definition exists and its storage resolves, `get`
returns the stored value unless that is null/undefined, in which case it
returns the default; the result is never `undefined`, and it is `null`
exactly when the defaulted value is `null` (the definition's `default`
field is absent or `null`) and the stored value is null/undefined/absent —
null is thus not reserved to absent definitions. -/
theorem get_characterization (f : Flagg) (w : WorldState) (flagName : String)
    (d : FlagDefinition) (idx : Nat) (ws : List Warning)
    (hd : getFlagDef f.definitions flagName = some d)
    (hr : resolveFlagStorage d f.storageMap = (some idx, ws)) :
    f.get w flagName =
      Except.ok
        (if storageGet w idx flagName = JSVal.undef ∨
            storageGet w idx flagName = JSVal.null
         then getFlagDefaultValue d else storageGet w idx flagName, ws) ∧
    (if storageGet w idx flagName = JSVal.undef ∨
        storageGet w idx flagName = JSVal.null
     then getFlagDefaultValue d else storageGet w idx flagName) ≠ JSVal.undef ∧
    ((if storageGet w idx flagName = JSVal.undef ∨
        storageGet w idx flagName = JSVal.null
      then getFlagDefaultValue d else storageGet w idx flagName) = JSVal.null ↔
      getFlagDefaultValue d = JSVal.null ∧
        (storageGet w idx flagName = JSVal.undef ∨
         storageGet w idx flagName = JSVal.null)) ∧
    (getFlagDefaultValue d = JSVal.null ↔
      d.default = JSVal.undef ∨ d.default = JSVal.null) := by
  have hr' : resolveFlagStorage d (makeStorageMap f.storages) = (some idx, ws) := hr
  refine ⟨by simp [Flagg.get, hd, Flagg.storageMap, hr'], ?_, ?_, ?_⟩
  · by_cases hsu : storageGet w idx flagName = JSVal.undef
    · simp [hsu, getFlagDefaultValue_ne_undef d]
    · by_cases hsn : storageGet w idx flagName = JSVal.null
      · simp [hsn, getFlagDefaultValue_ne_undef d]
      · simp [hsu, hsn]
  · by_cases hsu : storageGet w idx flagName = JSVal.undef
    · simp [hsu]
    · by_cases hsn : storageGet w idx flagName = JSVal.null
      · simp [hsn]
      · simp [hsu, hsn]
  · unfold getFlagDefaultValue
    by_cases hdef : d.default = JSVal.undef
    · simp [hdef]
    · simp [hdef]

/-- Witness for the amended C5: `exNullDefault`'s flag "a" on empty
storage resolves to `null` although a definition exists. -/
theorem get_characterization_witness :
    Flagg.get exNullDefault emptyWorld "a" =
      Except.ok
        (if storageGet emptyWorld 0 "a" = JSVal.undef ∨
            storageGet emptyWorld 0 "a" = JSVal.null
         then getFlagDefaultValue ⟨JSVal.null, none, none⟩
         else storageGet emptyWorld 0 "a", []) ∧
    (if storageGet emptyWorld 0 "a" = JSVal.undef ∨
        storageGet emptyWorld 0 "a" = JSVal.null
     then getFlagDefaultValue ⟨JSVal.null, none, none⟩
     else storageGet emptyWorld 0 "a") ≠ JSVal.undef ∧
    ((if storageGet emptyWorld 0 "a" = JSVal.undef ∨
        storageGet emptyWorld 0 "a" = JSVal.null
      then getFlagDefaultValue ⟨JSVal.null, none, none⟩
      else storageGet emptyWorld 0 "a") = JSVal.null ↔
      getFlagDefaultValue ⟨JSVal.null, none, none⟩ = JSVal.null ∧
        (storageGet emptyWorld 0 "a" = JSVal.undef ∨
         storageGet emptyWorld 0 "a" = JSVal.null)) ∧
    (getFlagDefaultValue ⟨JSVal.null, none, none⟩ = JSVal.null ↔
      FlagDefinition.default ⟨JSVal.null, none, none⟩ = JSVal.undef ∨
        FlagDefinition.default ⟨JSVal.null, none, none⟩ = JSVal.null) :=
  get_characterization exNullDefault emptyWorld "a" ⟨JSVal.null, none, none⟩
    0 [] rfl rfl

/-- C6: for a defined flag, the flag type is "select" when the definition
has an `options` list, else "string" when the default is a string, else
"boolean"; and `isOverridden` returns true iff, for boolean type,
`isOn(flagName)` differs from the boolean coercion of the default, and
for string/select type, `get(flagName)` differs from
`getDefault(flagName)` under strict equality. -/
theorem isOverridden_characterization (f : Flagg) (w : WorldState)
    (flagName : String) (d : FlagDefinition) (v : JSVal) (ws : List Warning)
    (hd : getFlagDef f.definitions flagName = some d)
    (hg : f.get w flagName = Except.ok (v, ws)) :
    getFlagType d = (if d.options.isSome then FlagType.select
      else if jsIsString d.default then FlagType.string else FlagType.boolean) ∧
    f.isOn w flagName = Except.ok (jsTruthy v) ∧
    f.getDefault flagName = Except.ok (getFlagDefaultValue d) ∧
    f.isOverridden w flagName =
      Except.ok (if getFlagType d = FlagType.boolean
        then decide (¬ jsTruthy v = jsTruthy (getFlagDefaultValue d))
        else decide (¬ v = getFlagDefaultValue d)) := by
  refine ⟨?_, by simp [Flagg.isOn, hg, Except.map],
    by simp [Flagg.getDefault, hd], ?_⟩
  · by_cases ho : d.options.isSome
    · simp [getFlagType, ho]
    · cases hdef : d.default <;> simp [getFlagType, ho, jsIsString, hdef]
  · by_cases hty : getFlagType d = FlagType.boolean
    · simp [Flagg.isOverridden, hd, hty, Flagg.isOn, hg, Flagg.getDefault,
        Except.map, Except.bind]
    · simp [Flagg.isOverridden, hd, hty, hg, Flagg.getDefault,
        Except.map, Except.bind]

/-- Witness for C6: `exBoolTrue`'s flag "a" (boolean default `true`) on
empty storage, where `get` resolves to the default `true`. -/
theorem isOverridden_characterization_witness :
    getFlagType ⟨JSVal.bool true, none, none⟩ =
      (if (FlagDefinition.options ⟨JSVal.bool true, none, none⟩).isSome
       then FlagType.select
       else if jsIsString (FlagDefinition.default ⟨JSVal.bool true, none, none⟩)
       then FlagType.string else FlagType.boolean) ∧
    Flagg.isOn exBoolTrue emptyWorld "a" = Except.ok (jsTruthy (JSVal.bool true)) ∧
    Flagg.getDefault exBoolTrue "a" =
      Except.ok (getFlagDefaultValue ⟨JSVal.bool true, none, none⟩) ∧
    Flagg.isOverridden exBoolTrue emptyWorld "a" =
      Except.ok (if getFlagType ⟨JSVal.bool true, none, none⟩ = FlagType.boolean
        then decide (¬ jsTruthy (JSVal.bool true) =
          jsTruthy (getFlagDefaultValue ⟨JSVal.bool true, none, none⟩))
        else decide (¬ JSVal.bool true =
          getFlagDefaultValue ⟨JSVal.bool true, none, none⟩)) :=
  isOverridden_characterization exBoolTrue emptyWorld "a"
    ⟨JSVal.bool true, none, none⟩ (JSVal.bool true) [] rfl rfl

/-- C7 counterexample: with a single storage "A" and a definition with no
`storage` field, resolution falls back to the "_default" entry (which is
bound to storage "A", position 0) but emits NO warning — the source warns
only when `storageName !== undefined` — contradicting the claimed
warning. -/
theorem resolve_absent_storage_no_warning :
    resolveFlagStorage ⟨JSVal.undef, none, none⟩ (makeStorageMap [⟨"A", true⟩])
      = (some 0, []) ∧
    storageLookup (makeStorageMap [⟨"A", true⟩]) "_default" = some 0 :=
  ⟨rfl, rfl⟩

/-- C7 (amended): assuming the data model's storage-name contract (the
supplied names are distinct and none equals the reserved "_default" nor
the string "undefined", to which an absent `storage` field coerces as a
property key), the storage map maps each supplied storage's name to that
storage and binds "_default" to the first storage of the sequence; a
definition whose `storage` field names no entry in the map falls back to
the "_default" entry with a warning, while a definition with no `storage`
field falls back to "_default" silently — no warning is emitted in that
case. -/
theorem storage_map_and_fallback (decls : List StorageDecl)
    (hnd : (decls.map StorageDecl.name).Nodup)
    (hdd : "_default" ∉ decls.map StorageDecl.name)
    (hun : "undefined" ∉ decls.map StorageDecl.name)
    (hne : decls ≠ []) (i : Nat) (d : StorageDecl)
    (hi : decls.get? i = some d) (s : String)
    (hs : s ∉ decls.map StorageDecl.name) (hsd : s ≠ "_default")
    (dfNone dfBad : FlagDefinition)
    (hfN : dfNone.storage = none) (hfB : dfBad.storage = some s) :
    storageLookup (makeStorageMap decls) d.name = some i ∧
    storageLookup (makeStorageMap decls) "_default" = some 0 ∧
    resolveFlagStorage dfNone (makeStorageMap decls) = (some 0, []) ∧
    resolveFlagStorage dfBad (makeStorageMap decls)
      = (some 0, [Warning.storageNotAvailable s]) := by
  have hdft := storageLookup_makeStorageMap_default decls hdd hne
  refine ⟨storageLookup_makeStorageMap_name decls hnd i d hi, hdft, ?_, ?_⟩
  · have hu : storageLookup (makeStorageMap decls) "undefined" = none :=
      storageLookup_makeStorageMap_not_mem decls "undefined" hun (by decide)
    simp [resolveFlagStorage, hfN, hu, hdft]
  · have hb : storageLookup (makeStorageMap decls) s = none :=
      storageLookup_makeStorageMap_not_mem decls s hs hsd
    simp [resolveFlagStorage, hfB, hb, hdft]

/-- Witness for the amended C7 on the two-storage list `exDecls`, the
second storage "B", the unregistered name "C", and definitions with
absent resp. unregistered `storage` fields. -/
theorem storage_map_and_fallback_witness :
    storageLookup (makeStorageMap exDecls) (StorageDecl.name ⟨"B", false⟩) = some 1 ∧
    storageLookup (makeStorageMap exDecls) "_default" = some 0 ∧
    resolveFlagStorage ⟨JSVal.undef, none, none⟩ (makeStorageMap exDecls)
      = (some 0, []) ∧
    resolveFlagStorage ⟨JSVal.undef, none, some "C"⟩ (makeStorageMap exDecls)
      = (some 0, [Warning.storageNotAvailable "C"]) :=
  storage_map_and_fallback exDecls (by decide) (by decide) (by decide)
    (by decide) 1 ⟨"B", false⟩ rfl "C" (by decide) (by decide)
    ⟨JSVal.undef, none, none⟩ ⟨JSVal.undef, none, some "C"⟩ rfl rfl

/-- C8: hydration applies each source's fetched mapping through the write
path as one bulk set; a hydrated value serialization-equal to the flag's
default on a writable resolved storage is pruned via the storage's
`remove` rather than stored (no entry remains afterwards); and on
`exBoolFalse` (flag "a", default `false`, read-write storage) with a
source returning `{a: true}`, `get("a")` returns `true` once the source's
fetch has been applied after construction. -/
theorem hydrate_bulk_and_prune (f : Flagg) (w : WorldState)
    (src : List (String × JSVal)) (fh : Flagg) (wh : WorldState)
    (name : String) (v : JSVal) (d : FlagDefinition) (idx : Nat)
    (ws : List Warning)
    (hd : getFlagDef fh.definitions name = some d)
    (hr : resolveFlagStorage d fh.storageMap = (some idx, ws))
    (hw : storageWritable fh.storages idx = true)
    (heq : jsonStringify v = jsonStringify (getFlagDefaultValue d)) :
    f.hydrate w [src] = ((f.setBulk w src).world, (f.setBulk w src).warnings) ∧
    jsObjGet ((fh.hydrate wh [[(name, v)]]).1 idx) name = none ∧
    exBoolFalse.get (exBoolFalse.hydrate emptyWorld [[("a", JSVal.bool true)]]).1 "a"
      = Except.ok (JSVal.bool true, []) := by
  have hr' : resolveFlagStorage d (makeStorageMap fh.storages) = (some idx, ws) := hr
  have hset : setFlagValue fh.definitions fh.storages name v wh
      = ⟨storageRemove wh idx name, ws, false⟩ := by
    simp [setFlagValue, hd, hr', heq, hw]
  refine ⟨by simp [Flagg.hydrate], ?_, rfl⟩
  simp [Flagg.hydrate, Flagg.setBulk, hset, jsObjGet_storageRemove_self]

/-- Witness for C8: hydrating `exBoolFalse` with the default value
`false` for "a" prunes rather than stores it. -/
theorem hydrate_bulk_and_prune_witness :
    Flagg.hydrate exBoolFalse emptyWorld [[("a", JSVal.bool true)]] =
      ((Flagg.setBulk exBoolFalse emptyWorld [("a", JSVal.bool true)]).world,
       (Flagg.setBulk exBoolFalse emptyWorld [("a", JSVal.bool true)]).warnings) ∧
    jsObjGet ((Flagg.hydrate exBoolFalse emptyWorld
      [[("a", JSVal.bool false)]]).1 0) "a" = none ∧
    Flagg.get exBoolFalse
      (Flagg.hydrate exBoolFalse emptyWorld [[("a", JSVal.bool true)]]).1 "a"
      = Except.ok (JSVal.bool true, []) :=
  hydrate_bulk_and_prune exBoolFalse emptyWorld [("a", JSVal.bool true)]
    exBoolFalse emptyWorld "a" (JSVal.bool false)
    ⟨JSVal.bool false, none, none⟩ 0 [] rfl rfl rfl (by decide)

end FlaggCore
